import Mathlib

/-!
Shallow embedding of the "Veo Storyteller" single-page application
(`src/App.tsx`, `src/services/geminiService.ts`, `src/types.ts` =
`src/unnamed/part_001`).

The browser, the vendor SDK and the remote model APIs are modelled as
parameters (oracles/outcomes): each async handler is embedded as a pure
function from the current UI state and the outcome of its remote calls to
the next UI state, together with the list of API calls it issued.
-/

namespace Veo

/-! ## Data model (`src/types.ts`) -/

/-- `StoryState` from `src/types.ts`; `error: string | null` becomes `Option String`. -/
structure StoryState where
  text : String
  isGenerating : Bool
  error : Option String
deriving Repr, DecidableEq

/-- `VideoState` from `src/types.ts`. -/
structure VideoState where
  url : Option String
  isGenerating : Bool
  progressMessage : String
  error : Option String
deriving Repr, DecidableEq

/-- A Web Audio `AudioBuffer`, modelled by the PCM samples it holds. -/
structure AudioBuffer where
  samples : List Int
deriving Repr, DecidableEq

/-- `AudioState` from `src/types.ts`. -/
structure AudioState where
  isPlaying : Bool
  isGenerating : Bool
  audioBuffer : Option AudioBuffer
deriving Repr, DecidableEq

/-- `AspectRatio` enum from `src/types.ts`. -/
inductive AspectRatio where
  | landscape
  | portrait
deriving Repr, DecidableEq

/-- The string value of each `AspectRatio` enum member. -/
def AspectRatio.value : AspectRatio → String
  | .landscape => "16:9"
  | .portrait => "9:16"

/-- The part of a browser `File` the app reads: `file.type` (its MIME type). -/
structure UploadedFile where
  mimeType : String
deriving Repr, DecidableEq

/-! ## JavaScript string/array primitives used by the app

`String.prototype.split(',')` and `Array.prototype.indexOf`, embedded
faithfully (split on every comma; indexOf returns -1 when absent). -/

/-- JS `str.split(',')` on the character list of the string. -/
def splitOnComma : List Char → List (List Char)
  | [] => [[]]
  | c :: rest =>
    if c = ',' then [] :: splitOnComma rest
    else
      match splitOnComma rest with
      | [] => [[c]]
      | h :: t => (c :: h) :: t

/-- JS `str.split(',')` for strings. -/
def jsSplitComma (s : String) : List String :=
  (splitOnComma s.data).map String.mk

/-- JS `arr.indexOf(s)` over a string array: first index, or -1 if absent. -/
def jsIndexOf (l : List String) (s : String) : Int :=
  match l with
  | [] => -1
  | x :: rest =>
    if x = s then 0
    else
      let r := jsIndexOf rest s
      if r = -1 then -1 else r + 1

/-- JS `arr[k]` with an integer index: `undefined` (`none`) when out of range. -/
def jsIndex (l : List String) (k : Int) : Option String :=
  if k < 0 then none else l.get? k.toNat

/-! ## `src/services/geminiService.ts` -/

/-- The fallback story used when the model response has no text. -/
def fallbackStory : String := "The mists of silence covered the land..."

/-- `response.text || "The mists of silence covered the land..."` from
`generateStory`: JS `||` falls through on `undefined` and on the empty
string (both falsy). `respText` is the optional `text` field of the
API response. -/
def storyResponseText (respText : Option String) : String :=
  match respText with
  | some t => if t = "" then fallbackStory else t
  | none => fallbackStory

/-- `generateStory` (`src/services/geminiService.ts:34-56`): the remote
`generateContent` call either throws (`.error`) or returns a response
whose `text` field is `respText`; on success the function resolves with
`response.text || fallback`. -/
def generateStory (outcome : Except String (Option String)) : Except String String :=
  outcome.map storyResponseText

/-- One snapshot of the remote long-running video operation: its `done`
flag and `operation.response?.generatedVideos?.[0]?.video?.uri`. -/
structure VeoOperation where
  done : Bool
  videoUri : Option String
deriving Repr, DecidableEq

/-- The remote environment `generateVeoVideo` talks to: `ops 0` is the
operation returned by `ai.models.generateVideos`, and `ops (n+1)` the
snapshot returned by the (n+1)-th `ai.operations.getVideosOperation`
re-fetch; `fetchOk` is whether the final download `fetch` succeeds, and
`objectUrl` the object URL `URL.createObjectURL` mints for the blob. -/
structure VeoEnv where
  ops : Nat → VeoOperation
  fetchOk : Bool
  objectUrl : String

/-- The `while (!operation.done)` polling loop of `generateVeoVideo`:
starting from snapshot index `i`, re-fetch (waiting between polls) until
a snapshot has `done` set, returning its index; `none` when `fuel`
re-fetches were not enough (the loop is still running). -/
def pollOps (ops : Nat → VeoOperation) : Nat → Nat → Option Nat
  | 0, _ => none
  | fuel + 1, i => if (ops i).done then some i else pollOps ops fuel (i + 1)

/-- `generateVeoVideo` (`src/services/geminiService.ts:61-103`): start the
operation, poll until `done`, then extract the download URI (throwing
`"No video generated in response."` when absent), fetch the blob
(throwing `"Failed to download generated video."` on a bad response) and
resolve with an object URL. `none` means the polling loop has not yet
terminated within `fuel` iterations. -/
def generateVeoVideo (env : VeoEnv) (fuel : Nat) : Option (Except String String) :=
  match pollOps env.ops fuel 0 with
  | none => none
  | some i =>
    match (env.ops i).videoUri with
    | none => some (.error "No video generated in response.")
    | some _ =>
      if env.fetchOk then some (.ok env.objectUrl)
      else some (.error "Failed to download generated video.")

/-- `generateSpeech` (`src/services/geminiService.ts:108-130`): `respData`
is `response.candidates?.[0]?.content?.parts?.[0]?.inlineData?.data`;
the function throws `"No audio data returned."` when it is absent and
resolves with the base64 payload otherwise. -/
def generateSpeech (respData : Option String) : Except String String :=
  match respData with
  | some d => .ok d
  | none => .error "No audio data returned."

/-! ## `src/services/audioUtils.ts` (not present under `src/`)

Modelled from the spec: the repository imports `decodeAudioData` from
`./services/audioUtils`, a file absent from the sources; the spec
describes it as "decoding a base64-encoded raw PCM audio payload into a
playable audio buffer". Standard base64 and 16-bit little-endian PCM
decoding are embedded below. -/

/-- Value of a character in the standard base64 alphabet, `none` for
padding/invalid characters. -/
def b64Val (c : Char) : Option Nat :=
  if 'A' ≤ c ∧ c ≤ 'Z' then some (c.toNat - 65)
  else if 'a' ≤ c ∧ c ≤ 'z' then some (c.toNat - 71)
  else if '0' ≤ c ∧ c ≤ '9' then some (c.toNat + 4)
  else if c = '+' then some 62
  else if c = '/' then some 63
  else none

/-- Reassemble bytes from a run of base64 sextets (4 sextets → 3 bytes,
a trailing 3 → 2 bytes, a trailing 2 → 1 byte). -/
def b64Groups : List Nat → List Nat
  | a :: b :: c :: d :: rest =>
    (a * 4 + b / 16) :: ((b % 16) * 16 + c / 4) :: ((c % 4) * 64 + d) :: b64Groups rest
  | [a, b, c] => [a * 4 + b / 16, (b % 16) * 16 + c / 4]
  | [a, b] => [a * 4 + b / 16]
  | _ => []

/-- Base64-decode a string to its byte sequence (padding ignored). -/
def base64Decode (s : String) : List Nat :=
  b64Groups (s.data.filterMap b64Val)

/-- Interpret a byte sequence as 16-bit little-endian signed PCM samples. -/
def pcm16 : List Nat → List Int
  | lo :: hi :: rest =>
    (let v := lo + 256 * hi
     if v < 32768 then (v : Int) else (v : Int) - 65536) :: pcm16 rest
  | _ => []

/-- Modelled from the spec: `decodeAudioData` from the missing
`src/services/audioUtils.ts`, "decoding a base64-encoded raw PCM audio
payload into a playable audio buffer" — base64-decode the payload and
interpret the bytes as raw PCM samples of an `AudioBuffer`. -/
def decodeAudioData (base64Audio : String) : AudioBuffer :=
  ⟨pcm16 (base64Decode base64Audio)⟩

/-! ## Audio subsystem of `src/App.tsx`

`audio` state, the `audioSourceRef` ref, and the set of
`AudioBufferSourceNode`s currently playing (`live`); `nextId` numbers
freshly created source nodes. An `ended` event can only fire for a
source that is live. -/

structure AudioSys where
  audio : AudioState
  sourceRef : Option Nat
  live : List Nat
  nextId : Nat
deriving Repr, DecidableEq

/-- The audio subsystem as the component mounts. -/
def initialAudioSys : AudioSys := ⟨⟨false, false, none⟩, none, [], 0⟩

/-- `playBuffer` (`src/App.tsx:184-194`): create a source node for the
buffer, start it, track it in `audioSourceRef`, and set `isPlaying`. -/
def playBuffer (s : AudioSys) (_buffer : AudioBuffer) : AudioSys :=
  { s with
    live := s.nextId :: s.live
    sourceRef := some s.nextId
    nextId := s.nextId + 1
    audio := { s.audio with isPlaying := true } }

/-- `stopAudio` (`src/App.tsx:196-204`): stop the tracked source node (if
any), clear the ref, and set `isPlaying` to false. -/
def stopAudio (s : AudioSys) : AudioSys :=
  let s :=
    match s.sourceRef with
    | some id => { s with live := s.live.filter (· ≠ id), sourceRef := none }
    | none => s
  { s with audio := { s.audio with isPlaying := false } }

/-- The `source.onended` callback (`src/App.tsx:189`) firing for source
`id` (which then stops being live): set `isPlaying` to false. -/
def onSourceEnded (s : AudioSys) (id : Nat) : AudioSys :=
  { s with
    live := s.live.filter (· ≠ id)
    audio := { s.audio with isPlaying := false } }

/-- `handleReadAloud` (`src/App.tsx:154-182`), given the story text and
the outcome of the remote `generateSpeech` call (error, or the PCM
samples the decoded buffer holds). Returns the new audio subsystem and
the list of texts sent to `generateSpeech`. -/
def handleReadAloud (s : AudioSys) (storyText : String)
    (outcome : Except String (List Int)) : AudioSys × List String :=
  if storyText = "" then (s, [])
  else if s.audio.isPlaying then (stopAudio s, [])
  else
    match s.audio.audioBuffer with
    | some buffer => (playBuffer s buffer, [])
    | none =>
      let s := { s with audio := { s.audio with isGenerating := true } }
      match outcome with
      | .ok samples =>
        let buffer : AudioBuffer := ⟨samples⟩
        let s := { s with
          audio := { s.audio with isGenerating := false, audioBuffer := some buffer } }
        (playBuffer s buffer, [storyText])
      | .error _ =>
        ({ s with audio := { s.audio with isGenerating := false, isPlaying := false } },
         [storyText])

/-- The audio part of the reset in `handleFileChange`
(`src/App.tsx:81-82`): `stopAudio()` then reset the `audio` state. -/
def audioFileReset (s : AudioSys) : AudioSys :=
  let s := stopAudio s
  { s with audio := ⟨false, false, none⟩ }

/-! ## Video state updates of `src/App.tsx` -/

/-- The `msgs` list inside the progress timer (`src/App.tsx:126-132`). -/
def msgs : List String :=
  ["Analyzing scene composition...",
   "Dreaming up motion vectors...",
   "Rendering frames with Veo...",
   "Polishing pixels...",
   "Almost there..."]

/-- `msgs[(currentIdx + 1) % msgs.length] || msgs[0]` with
`currentIdx = msgs.indexOf(m)` (`src/App.tsx:133-134`): JS `||` falls
back to `msgs[0]` on `undefined` and on the empty string. -/
def nextProgressMessage (m : String) : String :=
  let currentIdx := jsIndexOf msgs m
  match jsIndex msgs ((currentIdx + 1) % (msgs.length : Int)) with
  | some x => if x = "" then msgs.headD "" else x
  | none => msgs.headD ""

/-- One tick of the progress timer (`src/App.tsx:124-136`): leave the
state unchanged when not generating, otherwise advance only
`progressMessage`. -/
def videoTick (prev : VideoState) : VideoState :=
  if !prev.isGenerating then prev
  else { prev with progressMessage := nextProgressMessage prev.progressMessage }

/-- The video reset written by `handleFileChange` (`src/App.tsx:80`); also
the initial video state (`src/App.tsx:22-27`). -/
def videoReset : VideoState := ⟨none, false, "", none⟩

/-- The state written when `handleGenerateVideo` starts
(`src/App.tsx:119`). -/
def videoStart : VideoState := ⟨none, true, "Initializing Veo...", none⟩

/-- The state written when `generateVeoVideo` resolves
(`src/App.tsx:142`). -/
def videoSuccess (videoUrl : String) : VideoState := ⟨some videoUrl, false, "", none⟩

/-- The state written in the catch of `handleGenerateVideo`
(`src/App.tsx:145-150`); `msg` is `err.message || ""`. -/
def videoFail (msg : String) : VideoState :=
  ⟨none, false, "", some ("Video generation failed. " ++ msg)⟩

/-- Every update anyone performs on the video state: the
`handleFileChange` reset, and `handleGenerateVideo`'s start, timer tick,
success and failure writes. -/
inductive VideoEvent where
  | reset
  | start
  | tick
  | success (videoUrl : String)
  | fail (msg : String)

/-- Apply one video state update. -/
def videoStep (v : VideoState) : VideoEvent → VideoState
  | .reset => videoReset
  | .start => videoStart
  | .tick => videoTick v
  | .success u => videoSuccess u
  | .fail m => videoFail m

/-- The video states reachable from the initial state under the updates
of `src/App.tsx`. -/
inductive VideoReachable : VideoState → Prop
  | init : VideoReachable videoReset
  | step {v : VideoState} (e : VideoEvent) :
      VideoReachable v → VideoReachable (videoStep v e)

/-! ## The App component state and remaining handlers -/

/-- The state owned by the `App` component (`src/App.tsx:11-40`), with the
audio pieces grouped in `audioSys`. -/
structure AppState where
  apiKeyReady : Bool
  selectedFile : Option UploadedFile
  imagePreview : Option String
  story : StoryState
  video : VideoState
  audioSys : AudioSys
  aspectRatio : AspectRatio
deriving Repr, DecidableEq

/-- The component state right after mount. -/
def initialAppState : AppState :=
  ⟨false, none, none, ⟨"", false, none⟩, videoReset, initialAudioSys, .landscape⟩

/-- An API request issued through `src/services/geminiService.ts`.
`base64Data` is `Option` because JS `split(',')[1]` is `undefined` when
the string holds no comma. -/
inductive ApiCall where
  | story (base64Data : Option String) (mimeType : String)
  | video (base64Data : Option String) (mimeType : String) (ratio : AspectRatio)
  | speech (text : String)
deriving Repr, DecidableEq

/-- `handleGenerateStory` (`src/App.tsx:91-104`): strip the data-URL
header (`base64Image.split(',')[1]`), flag generation, call
`generateStory`, and store either the generated text or the failure.
`outcome` is the remote call's outcome (`msg` models `err.message || ""`
on throw); the issued call is returned alongside the new state. -/
def handleGenerateStory (st : AppState) (base64Image : String) (mimeType : String)
    (outcome : Except String (Option String)) : AppState × List ApiCall :=
  let base64Data := (jsSplitComma base64Image).get? 1
  let st := { st with story := { st.story with isGenerating := true, error := none } }
  match generateStory outcome with
  | .ok generatedText =>
    ({ st with story := ⟨generatedText, false, none⟩ }, [.story base64Data mimeType])
  | .error msg =>
    ({ st with story := ⟨"", false, some ("Failed to generate story. " ++ msg)⟩ },
     [.story base64Data mimeType])

/-- The synchronous part of `reader.onloadend` in `handleFileChange`
(`src/App.tsx:74-83`) together with the earlier `setSelectedFile`:
store the file and its data URL, reset the story, video and audio
states, and stop any playing audio — everything that runs before
`handleGenerateStory` is invoked. -/
def afterFileRead (st : AppState) (file : UploadedFile) (result : String) : AppState :=
  { st with
    selectedFile := some file
    imagePreview := some result
    story := ⟨"", false, none⟩
    video := videoReset
    audioSys := audioFileReset st.audioSys }

/-- `handleFileChange` (`src/App.tsx:68-89`) for a file whose read
succeeds with data URL `result`: reset the view state, then auto-run
`handleGenerateStory result file.type`. -/
def handleFileChange (st : AppState) (file : UploadedFile) (result : String)
    (outcome : Except String (Option String)) : AppState × List ApiCall :=
  handleGenerateStory (afterFileRead st file result) result file.mimeType outcome

/-- `handleGenerateVideo` (`src/App.tsx:106-152`): bail out without a
selected image; ensure the API key (`keyOk` is what `checkApiKey`
reports after the optional selection prompt); then strip the data-URL
header, write `videoStart`, let the progress timer tick `ticks` times
while `generateVeoVideo` runs, and write the success or failure state.
Returns the new state and the video API calls issued. -/
def handleGenerateVideo (st : AppState) (keyOk : Bool) (ticks : Nat)
    (outcome : Except String String) : AppState × List ApiCall :=
  match st.imagePreview, st.selectedFile with
  | some imagePreview, some selectedFile =>
    let st := if st.apiKeyReady then st else { st with apiKeyReady := keyOk }
    if st.apiKeyReady = false then (st, [])
    else
      let base64Data := (jsSplitComma imagePreview).get? 1
      let mimeType := selectedFile.mimeType
      let st := { st with video := videoStart }
      let st := { st with video := videoTick^[ticks] st.video }
      match outcome with
      | .ok videoUrl =>
        ({ st with video := videoSuccess videoUrl },
         [.video base64Data mimeType st.aspectRatio])
      | .error msg =>
        ({ st with video := videoFail msg },
         [.video base64Data mimeType st.aspectRatio])
  | _, _ => (st, [])

/-! ## Reachability of the audio subsystem -/

/-- Events touching the audio subsystem: a `handleReadAloud` click (with
the current story text and the speech outcome), the reset in
`handleFileChange`, and a live source node finishing. -/
inductive AudioReachable : AudioSys → Prop
  | init : AudioReachable initialAudioSys
  | readAloud {s : AudioSys} (storyText : String)
      (outcome : Except String (List Int)) :
      AudioReachable s → AudioReachable (handleReadAloud s storyText outcome).1
  | fileReset {s : AudioSys} :
      AudioReachable s → AudioReachable (audioFileReset s)
  | ended {s : AudioSys} {id : Nat} (hlive : id ∈ s.live) :
      AudioReachable s → AudioReachable (onSourceEnded s id)

/-- Invariant of the audio subsystem: at most one source node is live (and
then it is the tracked one), and nothing is live while `isPlaying` is
false. -/
def AudioInv (s : AudioSys) : Prop :=
  (s.live = [] ∨ ∃ id, s.live = [id] ∧ s.sourceRef = some id) ∧
  (s.audio.isPlaying = false → s.live = [])

/-- A concrete remote environment: the operation reports done from the
first re-fetch on. -/
def demoVeoEnv : VeoEnv :=
  ⟨fun k => ⟨decide (1 ≤ k), if 1 ≤ k then some "https:video" else none⟩,
   true, "blob:demo"⟩

/-- A concrete component state with an image selected, a story shown, and
audio playing through source node 3. -/
def demoPlayingState : AppState :=
  ⟨true, some ⟨"image/png"⟩, some "data:image/png;base64,QUJD",
   ⟨"Old story", false, none⟩, videoReset,
   ⟨⟨true, false, some ⟨[1]⟩⟩, some 3, [3], 4⟩, .landscape⟩

/-! ## Helper lemmas -/

theorem splitOnComma_cons (c : Char) (l : List Char) :
    splitOnComma (c :: l) =
      if c = ',' then [] :: splitOnComma l
      else
        match splitOnComma l with
        | [] => [[c]]
        | h :: t => (c :: h) :: t := rfl

theorem splitOnComma_ne_nil (l : List Char) : splitOnComma l ≠ [] := by
  cases l with
  | nil => simp [splitOnComma]
  | cons c rest =>
    rw [splitOnComma_cons]
    split
    · simp
    · cases h : splitOnComma rest <;> simp

theorem splitOnComma_no_comma {l : List Char} (h : ',' ∉ l) : splitOnComma l = [l] := by
  induction l with
  | nil => rfl
  | cons c rest ih =>
    simp only [List.mem_cons, not_or] at h
    have hcc : ¬(c = ',') := fun hc => h.1 hc.symm
    rw [splitOnComma_cons, if_neg hcc, ih h.2]

theorem splitOnComma_append {hd p : List Char} (hh : ',' ∉ hd) :
    splitOnComma (hd ++ ',' :: p) = hd :: splitOnComma p := by
  induction hd with
  | nil => simp [splitOnComma]
  | cons c rest ih =>
    simp only [List.mem_cons, not_or] at hh
    have hcc : ¬(c = ',') := fun hc => hh.1 hc.symm
    rw [List.cons_append, splitOnComma_cons, if_neg hcc, ih hh.2]

/-- Stripping the header of a data URL: JS `s.split(',')[1]` returns the
base64 payload when the header holds no comma and neither does the
payload. -/
theorem jsSplitComma_dataUrl {hd p : List Char} (hh : ',' ∉ hd) (hp : ',' ∉ p) :
    (jsSplitComma ⟨hd ++ ',' :: p⟩).get? 1 = some ⟨p⟩ := by
  show ((splitOnComma (hd ++ ',' :: p)).map String.mk).get? 1 = _
  rw [splitOnComma_append hh, splitOnComma_no_comma hp]
  rfl

theorem jsIndexOf_of_not_mem {l : List String} {s : String} (h : s ∉ l) :
    jsIndexOf l s = -1 := by
  induction l with
  | nil => rfl
  | cons x rest ih =>
    simp only [List.mem_cons, not_or] at h
    have hcc : ¬(x = s) := fun hc => h.1 hc.symm
    simp only [jsIndexOf, if_neg hcc, ih h.2]
    simp

theorem videoTick_url (v : VideoState) : (videoTick v).url = v.url := by
  unfold videoTick; split <;> rfl

theorem videoTick_isGenerating (v : VideoState) :
    (videoTick v).isGenerating = v.isGenerating := by
  unfold videoTick; split <;> rfl

theorem stopAudio_spec {s : AudioSys}
    (h : s.live = [] ∨ ∃ id, s.live = [id] ∧ s.sourceRef = some id) :
    (stopAudio s).live = [] ∧ (stopAudio s).sourceRef = none ∧
    (stopAudio s).audio.isPlaying = false := by
  unfold stopAudio
  cases hr : s.sourceRef with
  | none =>
    rcases h with h | ⟨id, _, h2⟩
    · exact ⟨h, hr, rfl⟩
    · rw [hr] at h2; exact absurd h2 (by simp)
  | some id =>
    rcases h with h | ⟨a, h1, h2⟩
    · simp [h]
    · rw [hr] at h2
      obtain rfl : id = a := Option.some.inj h2
      simp [h1]

theorem audioInv_initial : AudioInv initialAudioSys :=
  ⟨Or.inl rfl, fun _ => rfl⟩

theorem audioInv_playBuffer {s : AudioSys} (b : AudioBuffer) (h : s.live = []) :
    AudioInv (playBuffer s b) := by
  refine ⟨Or.inr ⟨s.nextId, ?_, rfl⟩, fun hc => absurd hc (by simp [playBuffer])⟩
  show s.nextId :: s.live = [s.nextId]
  rw [h]

theorem audioInv_readAloud {s : AudioSys} (h : AudioInv s) (text : String)
    (o : Except String (List Int)) : AudioInv (handleReadAloud s text o).1 := by
  unfold handleReadAloud
  by_cases ht : text = ""
  · rw [if_pos ht]; exact h
  · rw [if_neg ht]
    by_cases hp : s.audio.isPlaying = true
    · rw [if_pos hp]
      obtain ⟨h1, _, _⟩ := stopAudio_spec h.1
      exact ⟨Or.inl h1, fun _ => h1⟩
    · rw [if_neg hp]
      have hlive : s.live = [] := h.2 (by simpa using hp)
      cases hb : s.audio.audioBuffer with
      | some b => exact audioInv_playBuffer b hlive
      | none =>
        cases o with
        | ok samples =>
          dsimp only
          exact audioInv_playBuffer ⟨samples⟩ hlive
        | error e => exact ⟨Or.inl hlive, fun _ => hlive⟩

theorem audioInv_fileReset {s : AudioSys} (h : AudioInv s) :
    AudioInv (audioFileReset s) := by
  obtain ⟨h1, _, _⟩ := stopAudio_spec h.1
  exact ⟨Or.inl h1, fun _ => h1⟩

theorem audioInv_ended {s : AudioSys} (h : AudioInv s) {id : Nat}
    (hlive : id ∈ s.live) : AudioInv (onSourceEnded s id) := by
  rcases h.1 with h1 | ⟨a, ha, _⟩
  · rw [h1] at hlive; cases hlive
  · obtain rfl : id = a := by rw [ha] at hlive; simpa using hlive
    have hfilter : (onSourceEnded s id).live = [] := by
      show s.live.filter (· ≠ id) = []
      rw [ha]; simp
    exact ⟨Or.inl hfilter, fun _ => hfilter⟩

theorem audioInv_reachable {s : AudioSys} (h : AudioReachable s) : AudioInv s := by
  induction h with
  | init => exact audioInv_initial
  | readAloud text o _ ih => exact audioInv_readAloud ih text o
  | fileReset _ ih => exact audioInv_fileReset ih
  | ended hlive _ ih => exact audioInv_ended ih hlive

/-- `pollOps` only answers with the index of a snapshot that reports
done, and it is the first such index at or after the start. -/
theorem pollOps_spec {ops : Nat → VeoOperation} :
    ∀ fuel start i, pollOps ops fuel start = some i →
      (ops i).done = true ∧ start ≤ i ∧
      ∀ j, start ≤ j → j < i → (ops j).done = false := by
  intro fuel
  induction fuel with
  | zero => intro start i h; simp [pollOps] at h
  | succ fuel ih =>
    intro start i h
    simp only [pollOps] at h
    by_cases hd : (ops start).done
    · rw [if_pos hd] at h
      obtain rfl : start = i := Option.some.injEq _ _ ▸ h
      exact ⟨hd, le_refl _, fun j h1 h2 => absurd (lt_of_le_of_lt h1 h2) (lt_irrefl _)⟩
    · rw [if_neg hd] at h
      obtain ⟨h1, h2, h3⟩ := ih (start + 1) i h
      refine ⟨h1, le_trans (Nat.le_succ _) h2, fun j hj1 hj2 => ?_⟩
      rcases Nat.eq_or_lt_of_le hj1 with rfl | hlt
      · exact Bool.not_eq_true _ ▸ (by simpa using hd)
      · exact h3 j hlt hj2

/-- With enough fuel, `pollOps` finds a done snapshot when one exists in
range. -/
theorem pollOps_terminates {ops : Nat → VeoOperation} :
    ∀ fuel start, (∃ k, k < fuel ∧ (ops (start + k)).done = true) →
      (pollOps ops fuel start).isSome = true := by
  intro fuel
  induction fuel with
  | zero => intro start ⟨k, hk, _⟩; exact absurd hk (Nat.not_lt_zero k)
  | succ fuel ih =>
    intro start ⟨k, hk, hdone⟩
    simp only [pollOps]
    by_cases hd : (ops start).done
    · rw [if_pos hd]; rfl
    · rw [if_neg hd]
      cases k with
      | zero => exact absurd (by simpa using hdone) hd
      | succ k' =>
        refine ih (start + 1) ⟨k', Nat.lt_of_succ_lt_succ hk, ?_⟩
        have harith : start + 1 + k' = start + (k' + 1) := by omega
        rw [harith]
        exact hdone

/-! ## Claims -/

/-- C1: `generateVeoVideo` is a polling loop: after starting the
operation it repeatedly re-fetches it while `done` is false, and it
returns an object URL for the downloaded video only after some snapshot
reports done; when snapshot `n` reports done, the loop terminates within
`n + 1` polls. -/
theorem generateVeoVideo_polls_until_done {env : VeoEnv} {n : Nat}
    (hdone : (env.ops n).done = true) :
    (generateVeoVideo env (n + 1)).isSome = true ∧
    (∀ fuel i, pollOps env.ops fuel 0 = some i →
      (env.ops i).done = true ∧ ∀ j, j < i → (env.ops j).done = false) ∧
    (∀ fuel u, generateVeoVideo env fuel = some (.ok u) →
      u = env.objectUrl ∧ env.fetchOk = true ∧
      ∃ i, pollOps env.ops fuel 0 = some i ∧ (env.ops i).done = true ∧
           (env.ops i).videoUri.isSome = true) := by
  refine ⟨?_, ?_, ?_⟩
  · have hpoll : (pollOps env.ops (n + 1) 0).isSome = true :=
      pollOps_terminates (n + 1) 0 ⟨n, Nat.lt_succ_self n, by simpa using hdone⟩
    obtain ⟨i, hi⟩ := Option.isSome_iff_exists.mp hpoll
    simp only [generateVeoVideo, hi]
    cases (env.ops i).videoUri with
    | none => rfl
    | some _ => by_cases hf : env.fetchOk <;> simp [hf]
  · intro fuel i h
    obtain ⟨h1, _, h3⟩ := pollOps_spec fuel 0 i h
    exact ⟨h1, fun j hj => h3 j (Nat.zero_le j) hj⟩
  · intro fuel u h
    unfold generateVeoVideo at h
    split at h
    · simp at h
    · rename_i i hp
      split at h
      · simp at h
      · rename_i uri hu
        split at h
        · rename_i hf
          have hu' : u = env.objectUrl := (Except.ok.inj (Option.some.inj h)).symm
          exact ⟨hu', hf, i, hp, (pollOps_spec fuel 0 i hp).1, by simp [hu]⟩
        · simp at h

/-- Witness for C1 at a concrete environment. -/
theorem generateVeoVideo_polls_until_done_witness :
    (generateVeoVideo demoVeoEnv 2).isSome = true :=
  (@generateVeoVideo_polls_until_done demoVeoEnv 1 rfl).1

/-- C8: `generateStory` never resolves with an empty story — empty or
missing response text falls back to the fixed string, and a non-empty
response text is returned as is. -/
theorem generateStory_never_empty (respText : Option String) :
    storyResponseText respText ≠ "" ∧
    (respText = none ∨ respText = some "" → storyResponseText respText = fallbackStory) ∧
    (∀ t, t ≠ "" → storyResponseText (some t) = t) ∧
    generateStory (.ok respText) = .ok (storyResponseText respText) := by
  refine ⟨?_, ?_, ?_, rfl⟩
  · cases respText with
    | none => decide
    | some t =>
      by_cases ht : t = ""
      · simp [storyResponseText, ht]; decide
      · simp [storyResponseText, ht]
  · rintro (rfl | rfl) <;> rfl
  · intro t ht; simp [storyResponseText, ht]

/-- Witness for C8 at a missing and at a non-empty response text. -/
theorem generateStory_never_empty_witness :
    storyResponseText none = fallbackStory ∧ storyResponseText (some "Hi") = "Hi" :=
  ⟨(generateStory_never_empty none).2.1 (Or.inl rfl),
   (generateStory_never_empty (some "Hi")).2.2.1 "Hi" (by decide)⟩

/-- C9: `handleGenerateVideo` requires a selected image — with no image
preview or no selected file it returns at once, issuing no API call and
leaving the whole component state unchanged. -/
theorem generateVideo_requires_image {st : AppState} (keyOk : Bool) (ticks : Nat)
    (outcome : Except String String)
    (h : st.imagePreview = none ∨ st.selectedFile = none) :
    handleGenerateVideo st keyOk ticks outcome = (st, []) := by
  unfold handleGenerateVideo
  rcases h with h | h
  · rw [h]
  · rw [h]; cases st.imagePreview <;> rfl

/-- Witness for C9 at the freshly mounted state. -/
theorem generateVideo_requires_image_witness :
    handleGenerateVideo initialAppState true 3 (.ok "blob:v") = (initialAppState, []) :=
  generateVideo_requires_image true 3 (.ok "blob:v") (Or.inl rfl)

/-- C3: uploading an image auto-generates the story — for a successfully
read file whose data URL is `header ++ "," ++ payload`, `handleFileChange`
invokes `handleGenerateStory`, which issues exactly one story call
carrying the payload (header stripped) and the file's MIME type, and on
a successful response the story state holds the generated text with
`isGenerating` false and `error` null. -/
theorem upload_auto_generates_story (st : AppState) (file : UploadedFile)
    (hd pl : List Char) (hh : ',' ∉ hd) (hp : ',' ∉ pl)
    (outcome : Except String (Option String)) :
    (handleFileChange st file ⟨hd ++ ',' :: pl⟩ outcome).2
      = [.story (some ⟨pl⟩) file.mimeType] ∧
    ∀ respText, outcome = .ok respText →
      (handleFileChange st file ⟨hd ++ ',' :: pl⟩ outcome).1.story
        = ⟨storyResponseText respText, false, none⟩ := by
  have hsplit := jsSplitComma_dataUrl hh hp
  rw [List.get?_eq_getElem?] at hsplit
  constructor
  · show (handleGenerateStory _ _ _ outcome).2 = _
    unfold handleGenerateStory
    cases outcome with
    | ok r => simp [generateStory, Except.map, hsplit]
    | error e => simp [generateStory, Except.map, hsplit]
  · rintro r rfl
    show (handleGenerateStory _ _ _ _).1.story = _
    unfold handleGenerateStory
    simp [generateStory, Except.map]

/-- Witness for C3 on a concrete PNG data URL and response. -/
theorem upload_auto_generates_story_witness :
    (handleFileChange initialAppState ⟨"image/png"⟩ "data:image/png;base64,QUJD"
        (.ok (some "A story."))).2
      = [.story (some "QUJD") "image/png"] ∧
    (handleFileChange initialAppState ⟨"image/png"⟩ "data:image/png;base64,QUJD"
        (.ok (some "A story."))).1.story
      = ⟨"A story.", false, none⟩ :=
  ⟨(upload_auto_generates_story initialAppState ⟨"image/png"⟩
      "data:image/png;base64".data "QUJD".data (by decide) (by decide)
      (.ok (some "A story."))).1,
   (upload_auto_generates_story initialAppState ⟨"image/png"⟩
      "data:image/png;base64".data "QUJD".data (by decide) (by decide)
      (.ok (some "A story."))).2 (some "A story.") rfl⟩

/-- C4: in every reachable video state, `isGenerating` and a non-null
`url` never hold together; all writes performed by `handleGenerateVideo`
(start, timer ticks, success, failure) and `handleFileChange` (reset)
stay within the reachable states. -/
theorem video_generating_ready_exclusive :
    (∀ v, VideoReachable v → ¬(v.isGenerating = true ∧ v.url ≠ none)) ∧
    (∀ ticks, VideoReachable (videoTick^[ticks] videoStart)) ∧
    (∀ st keyOk ticks outcome, VideoReachable st.video →
      VideoReachable (handleGenerateVideo st keyOk ticks outcome).1.video) ∧
    (∀ st file result outcome,
      VideoReachable (handleFileChange st file result outcome).1.video) := by
  refine ⟨?_, ?_, ?_, ?_⟩
  · intro v h
    induction h with
    | init => simp [videoReset]
    | step e _ ih =>
      cases e with
      | reset => simp [videoStep, videoReset]
      | start => simp [videoStep, videoStart]
      | tick =>
        simp only [videoStep]
        intro hcontra
        rw [videoTick_isGenerating, videoTick_url] at hcontra
        exact ih hcontra
      | success u => simp [videoStep, videoSuccess]
      | fail m => simp [videoStep, videoFail]
  · intro ticks
    induction ticks with
    | zero => exact VideoReachable.step .start VideoReachable.init
    | succ t ih =>
      rw [Function.iterate_succ_apply']
      exact VideoReachable.step .tick ih
  · intro st keyOk ticks outcome hst
    unfold handleGenerateVideo
    cases st.imagePreview with
    | none => cases st.selectedFile <;> exact hst
    | some p =>
      cases st.selectedFile with
      | none => exact hst
      | some f =>
        dsimp only
        by_cases hk : st.apiKeyReady = true
        · simp only [hk, if_true]
          rw [if_neg (by simp [hk])]
          cases outcome with
          | ok u => exact VideoReachable.step (.success u) hst
          | error m => exact VideoReachable.step (.fail m) hst
        · simp only [hk, if_false]
          by_cases hko : keyOk = true
          · rw [if_neg (by simp [hko])]
            cases outcome with
            | ok u => exact VideoReachable.step (.success u) hst
            | error m => exact VideoReachable.step (.fail m) hst
          · rw [if_pos (by simp at hko ⊢; exact hko)]
            exact hst
  · intro st file result outcome
    show VideoReachable (handleGenerateStory (afterFileRead st file result) _ _ _).1.video
    unfold handleGenerateStory
    cases generateStory outcome with
    | ok t => exact VideoReachable.init
    | error e => exact VideoReachable.init

/-- Witness for C4 at the initial state and a concrete generation run. -/
theorem video_generating_ready_exclusive_witness :
    ¬(videoReset.isGenerating = true ∧ videoReset.url ≠ none) ∧
    VideoReachable (handleGenerateVideo demoPlayingState true 2 (.ok "blob:v")).1.video :=
  ⟨video_generating_ready_exclusive.1 videoReset VideoReachable.init,
   video_generating_ready_exclusive.2.2.1 demoPlayingState true 2 (.ok "blob:v")
     VideoReachable.init⟩

/-- C5: at most one audio source plays at a time in every reachable state
of the audio subsystem — `playBuffer` is only reached with no live
source (when `isPlaying` is false; `handleReadAloud` stops instead of
starting when it is true), and `stopAudio` stops the tracked source,
clears the reference and resets `isPlaying`. -/
theorem audio_single_source {s : AudioSys} (h : AudioReachable s) :
    s.live.length ≤ 1 ∧
    (s.audio.isPlaying = false → s.live = []) ∧
    (stopAudio s).audio.isPlaying = false ∧
    (stopAudio s).sourceRef = none ∧
    (stopAudio s).live = [] ∧
    (∀ id, s.sourceRef = some id → id ∉ (stopAudio s).live) := by
  obtain ⟨h1, h2⟩ := audioInv_reachable h
  obtain ⟨hl, hr, hps⟩ := stopAudio_spec h1
  refine ⟨?_, h2, hps, hr, hl, ?_⟩
  · rcases h1 with h1 | ⟨a, ha, _⟩
    · simp [h1]
    · simp [ha]
  · intro id _
    rw [hl]
    simp

/-- Witness for C5 after a first Read Aloud from the mounted state. -/
theorem audio_single_source_witness :
    (handleReadAloud initialAudioSys "Hi" (.ok [1, 2])).1.live.length ≤ 1 ∧
    (stopAudio (handleReadAloud initialAudioSys "Hi" (.ok [1, 2])).1).sourceRef = none ∧
    (stopAudio (handleReadAloud initialAudioSys "Hi" (.ok [1, 2])).1).live = [] :=
  ⟨(audio_single_source (AudioReachable.readAloud "Hi" (.ok [1, 2])
      AudioReachable.init)).1,
   (audio_single_source (AudioReachable.readAloud "Hi" (.ok [1, 2])
      AudioReachable.init)).2.2.2.1,
   (audio_single_source (AudioReachable.readAloud "Hi" (.ok [1, 2])
      AudioReachable.init)).2.2.2.2.1⟩

/-- C6: a progress-timer tick is pure state bookkeeping — it returns the
state unchanged when not generating, otherwise it only replaces
`progressMessage` by the next element of the fixed five-message list,
wrapping from the last (and from any message outside the list) to the
first. -/
theorem progress_tick_spec :
    (∀ v : VideoState, v.isGenerating = false → videoTick v = v) ∧
    (∀ v : VideoState, v.isGenerating = true →
      videoTick v = { v with progressMessage := nextProgressMessage v.progressMessage }) ∧
    (∀ i, i < 5 → nextProgressMessage (msgs.getD i "") = msgs.getD ((i + 1) % 5) "") ∧
    (∀ m, m ∉ msgs → nextProgressMessage m = "Analyzing scene composition...") := by
  refine ⟨?_, ?_, ?_, ?_⟩
  · intro v h; simp [videoTick, h]
  · intro v h; simp [videoTick, h]
  · intro i h
    interval_cases i <;> rfl
  · intro m hm
    unfold nextProgressMessage
    rw [jsIndexOf_of_not_mem hm]
    rfl

/-- Witness for C6: wrap from the last message, and recovery from a
message outside the list. -/
theorem progress_tick_spec_witness :
    videoTick videoReset = videoReset ∧
    nextProgressMessage (msgs.getD 4 "") = msgs.getD ((4 + 1) % 5) "" ∧
    nextProgressMessage "garbage" = "Analyzing scene composition..." :=
  ⟨progress_tick_spec.1 videoReset rfl,
   progress_tick_spec.2.2.1 4 (by decide),
   progress_tick_spec.2.2.2 "garbage" (by decide)⟩

/-- C7: reading a new file resets the view state before story generation
starts — the story, video and audio states return to their initial
values, playing audio is stopped (no live source, reference cleared),
the new image is stored, and only then does `handleFileChange` hand over
to `handleGenerateStory`. -/
theorem fileChange_resets_view_state (st : AppState) (file : UploadedFile)
    (result : String) (hinv : AudioInv st.audioSys) :
    (afterFileRead st file result).story = ⟨"", false, none⟩ ∧
    (afterFileRead st file result).video = videoReset ∧
    (afterFileRead st file result).audioSys.audio = ⟨false, false, none⟩ ∧
    (afterFileRead st file result).audioSys.sourceRef = none ∧
    (afterFileRead st file result).audioSys.live = [] ∧
    (afterFileRead st file result).imagePreview = some result ∧
    (afterFileRead st file result).selectedFile = some file ∧
    ∀ outcome, handleFileChange st file result outcome
      = handleGenerateStory (afterFileRead st file result) result file.mimeType outcome := by
  obtain ⟨hl, hr, _⟩ := stopAudio_spec hinv.1
  refine ⟨rfl, rfl, rfl, ?_, ?_, rfl, rfl, fun _ => rfl⟩
  · show (audioFileReset st.audioSys).sourceRef = none
    exact hr
  · show (audioFileReset st.audioSys).live = []
    exact hl

/-- Witness for C7 from a state whose audio is playing. -/
theorem fileChange_resets_view_state_witness :
    (afterFileRead demoPlayingState ⟨"image/jpeg"⟩ "data:image/jpeg;base64,REVG").story
      = ⟨"", false, none⟩ ∧
    (afterFileRead demoPlayingState ⟨"image/jpeg"⟩ "data:image/jpeg;base64,REVG").video
      = videoReset ∧
    (afterFileRead demoPlayingState ⟨"image/jpeg"⟩ "data:image/jpeg;base64,REVG").audioSys.audio
      = ⟨false, false, none⟩ ∧
    (afterFileRead demoPlayingState ⟨"image/jpeg"⟩ "data:image/jpeg;base64,REVG").audioSys.live
      = [] :=
  ⟨(fileChange_resets_view_state demoPlayingState ⟨"image/jpeg"⟩
      "data:image/jpeg;base64,REVG"
      ⟨Or.inr ⟨3, rfl, rfl⟩, fun hc => absurd hc (by decide)⟩).1,
   (fileChange_resets_view_state demoPlayingState ⟨"image/jpeg"⟩
      "data:image/jpeg;base64,REVG"
      ⟨Or.inr ⟨3, rfl, rfl⟩, fun hc => absurd hc (by decide)⟩).2.1,
   (fileChange_resets_view_state demoPlayingState ⟨"image/jpeg"⟩
      "data:image/jpeg;base64,REVG"
      ⟨Or.inr ⟨3, rfl, rfl⟩, fun hc => absurd hc (by decide)⟩).2.2.1,
   (fileChange_resets_view_state demoPlayingState ⟨"image/jpeg"⟩
      "data:image/jpeg;base64,REVG"
      ⟨Or.inr ⟨3, rfl, rfl⟩, fun hc => absurd hc (by decide)⟩).2.2.2.2.1⟩

/-- C10: `handleReadAloud` generates speech at most once per story — when
playing it only stops; with a cached buffer it only replays it; only with
no cached buffer and nothing playing does it issue one `generateSpeech`
call, cache the decoded buffer, and start playback. -/
theorem readAloud_caches_speech (s : AudioSys) (storyText : String)
    (outcome : Except String (List Int)) (htext : storyText ≠ "") :
    (s.audio.isPlaying = true →
      handleReadAloud s storyText outcome = (stopAudio s, [])) ∧
    (s.audio.isPlaying = false → ∀ b, s.audio.audioBuffer = some b →
      handleReadAloud s storyText outcome = (playBuffer s b, [])) ∧
    (s.audio.isPlaying = false → s.audio.audioBuffer = none →
      (handleReadAloud s storyText outcome).2 = [storyText] ∧
      ∀ samples, outcome = .ok samples →
        (handleReadAloud s storyText outcome).1.audio.audioBuffer = some ⟨samples⟩ ∧
        (handleReadAloud s storyText outcome).1.audio.isPlaying = true ∧
        (handleReadAloud s storyText outcome).1.audio.isGenerating = false) := by
  unfold handleReadAloud
  rw [if_neg htext]
  refine ⟨?_, ?_, ?_⟩
  · intro hp; rw [if_pos hp]
  · intro hp b hb
    rw [if_neg (by simp [hp]), hb]
  · intro hp hb
    rw [if_neg (by simp [hp]), hb]
    constructor
    · cases outcome <;> rfl
    · rintro samples rfl
      exact ⟨rfl, rfl, rfl⟩

/-- Witness for C10: the first Read Aloud from the mounted state issues
one speech call, caches the buffer and plays it. -/
theorem readAloud_caches_speech_witness :
    (handleReadAloud initialAudioSys "Hi" (.ok [1, 2])).2 = ["Hi"] ∧
    (handleReadAloud initialAudioSys "Hi" (.ok [1, 2])).1.audio.audioBuffer
      = some ⟨[1, 2]⟩ ∧
    (handleReadAloud initialAudioSys "Hi" (.ok [1, 2])).1.audio.isPlaying = true :=
  ⟨((readAloud_caches_speech initialAudioSys "Hi" (.ok [1, 2])
      (by decide)).2.2 rfl rfl).1,
   (((readAloud_caches_speech initialAudioSys "Hi" (.ok [1, 2])
      (by decide)).2.2 rfl rfl).2 [1, 2] rfl).1,
   (((readAloud_caches_speech initialAudioSys "Hi" (.ok [1, 2])
      (by decide)).2.2 rfl rfl).2 [1, 2] rfl).2.1⟩

/-- C2: every base64 payload `generateSpeech` resolves with is decoded by
`decodeAudioData` into an `AudioBuffer` whose samples are the decoded
PCM data, and `playBuffer` starts playing that buffer (a new live,
tracked source with `isPlaying` set). -/
theorem speech_decodes_to_pcm_buffer (respData : Option String) (d : String)
    (h : generateSpeech respData = .ok d) :
    respData = some d ∧
    (decodeAudioData d).samples = pcm16 (base64Decode d) ∧
    ∀ s : AudioSys,
      (playBuffer s (decodeAudioData d)).audio.isPlaying = true ∧
      (playBuffer s (decodeAudioData d)).sourceRef = some s.nextId ∧
      s.nextId ∈ (playBuffer s (decodeAudioData d)).live := by
  refine ⟨?_, rfl, fun s => ⟨rfl, rfl, List.mem_cons_self _ _⟩⟩
  cases respData with
  | none => exact absurd h (by simp [generateSpeech])
  | some x =>
    have hx : x = d := by simpa [generateSpeech] using h
    rw [hx]

/-- Witness for C2 on a concrete payload: "AEAAwA==" decodes to the two
16-bit samples 16384 and -16384, and playing it sets `isPlaying`. -/
theorem speech_decodes_to_pcm_buffer_witness :
    (decodeAudioData "AEAAwA==").samples = pcm16 (base64Decode "AEAAwA==") ∧
    (decodeAudioData "AEAAwA==").samples = [16384, -16384] ∧
    (playBuffer initialAudioSys (decodeAudioData "AEAAwA==")).audio.isPlaying = true :=
  ⟨(speech_decodes_to_pcm_buffer (some "AEAAwA==") "AEAAwA==" rfl).2.1,
   by decide,
   ((speech_decodes_to_pcm_buffer (some "AEAAwA==") "AEAAwA==" rfl).2.2
      initialAudioSys).1⟩

end Veo
